import Mathlib

/-!
# Verification of the real-time notification gateway

Shallow embedding of the WebSocket gateway of the project/task tracker:
the notification consumer (`notifications/consumers.py`), the project room
consumer (`projects/consumers.py`), the JWT authentication middleware with
its connection rate limiter (`config/websocket_auth.py`), the realtime
publish helpers (`notifications/utils.py`) and the task-creation hook
(`tasks/views.py`), over the `Notification` model
(`notifications/models.py`).

Machine integers are modeled as `Nat`; timestamps are integer seconds.
Django's cache is an association list of entries carrying an absolute
expiry instant.  Python exceptions raised by the ORM (unknown filter
keyword, missing attribute) are modeled with `Except`.
-/

namespace ManageProject

/-- Values a model column can take in this embedding. -/
inductive AttrVal where
  | nat (n : Nat)
  | str (s : String)
  | bool (b : Bool)
  | optNat (o : Option Nat)
  deriving Repr, DecidableEq

/-- Runtime errors surfaced by the ORM layer: an unresolvable query keyword
(`django.core.exceptions.FieldError`) or a missing Python attribute
(`AttributeError`). -/
inductive PyError where
  | fieldError (key : String)
  | attributeError (name : String)
  deriving Repr, DecidableEq

/-- Model of `notifications/models.py`, `class Notification`: one durable
notification record.  The generic foreign key is reduced to its
`object_id`; `created_at`/`read_at` are integer seconds. -/
structure Notification where
  id : Nat
  recipient : Nat
  notification_type : String
  title : String
  message : String
  object_id : Option Nat
  is_read : Bool
  read_at : Option Nat
  created_at : Nat
  deriving Repr, DecidableEq

namespace Notification

/-- The column names of the `Notification` model.  Note the read flag is
named `is_read` (`notifications/models.py` line 43); there is no column
named `read`. -/
def fieldNames : List String :=
  ["id", "recipient", "notification_type", "title", "message",
   "object_id", "is_read", "read_at", "created_at"]

/-- Python attribute access on a `Notification` instance: defined exactly
for the model's columns, `none` (= `AttributeError`) for anything else. -/
def attr (n : Notification) (name : String) : Option AttrVal :=
  if name = "id" then some (.nat n.id)
  else if name = "recipient" then some (.nat n.recipient)
  else if name = "notification_type" then some (.str n.notification_type)
  else if name = "title" then some (.str n.title)
  else if name = "message" then some (.str n.message)
  else if name = "object_id" then some (.optNat n.object_id)
  else if name = "is_read" then some (.bool n.is_read)
  else if name = "read_at" then some (.optNat n.read_at)
  else if name = "created_at" then some (.nat n.created_at)
  else none

/-- Assign one column.  Only called after the keyword was resolved against
`fieldNames`; a value of the wrong shape leaves the row unchanged. -/
def setAttr (n : Notification) (key : String) (v : AttrVal) : Notification :=
  match key, v with
  | "recipient", .nat r => { n with recipient := r }
  | "notification_type", .str s => { n with notification_type := s }
  | "title", .str s => { n with title := s }
  | "message", .str s => { n with message := s }
  | "object_id", .optNat o => { n with object_id := o }
  | "is_read", .bool b => { n with is_read := b }
  | "read_at", .optNat o => { n with read_at := o }
  | "created_at", .nat t => { n with created_at := t }
  | _, _ => n

/-- One queryset `filter(key=value)` step.  Django resolves the keyword
against the model's columns when the queryset is built and raises
`FieldError` for an unknown name — this is what `filter(read=False)` hits,
since the column is called `is_read`. -/
def qsFilter (rows : List Notification) (key : String) (v : AttrVal) :
    Except PyError (List Notification) :=
  if key ∈ fieldNames then
    Except.ok (rows.filter (fun n => decide (n.attr key = some v)))
  else Except.error (.fieldError key)

/-- Model of `queryset.update(**assigns)`: every assignment keyword is resolved
before any row is written (a `FieldError` aborts the whole statement), then
the rows selected by `matchesRow` are rewritten in place.  Returns the
number of rows updated together with the new table. -/
def qsUpdate (table : List Notification) (matchesRow : Notification → Bool)
    (assigns : List (String × AttrVal)) :
    Except PyError (Nat × List Notification) :=
  match assigns.find? (fun kv => decide (kv.1 ∉ fieldNames)) with
  | some kv => Except.error (.fieldError kv.1)
  | none =>
    Except.ok
      ((table.filter matchesRow).length,
       table.map (fun n =>
         if matchesRow n then assigns.foldl (fun m kv => m.setAttr kv.1 kv.2) n else n))

/-- Model of `mark_as_read` (`notifications/models.py`): set `is_read` and `read_at`
and save. -/
def mark_as_read (n : Notification) (now : Nat) : Notification :=
  { n with is_read := true, read_at := some now }

/-- Model of `order_by('-created_at')`: insertion of one row into a list sorted by
descending creation time. -/
def insertDesc (n : Notification) : List Notification → List Notification
  | [] => [n]
  | m :: ms => if m.created_at < n.created_at then n :: m :: ms else m :: insertDesc n ms

/-- Model of `order_by('-created_at')` over a whole queryset. -/
def orderByCreatedAtDesc (rows : List Notification) : List Notification :=
  rows.foldr insertDesc []

end Notification

/-- Python truthiness of an optional string (`if category:`): absent and
empty strings are falsy. -/
def strTruthy : Option String → Option String
  | some c => if c = "" then none else some c
  | none => none

/-- Python truthiness of an optional number (`if notification_id:`): absent
and zero are falsy. -/
def natTruthy : Option Nat → Option Nat
  | some n => if n = 0 then none else some n
  | none => none

/-- The dict built for each row by `_get_recent_notifications`
(`notifications/consumers.py` lines 364-375). -/
structure NotificationJson where
  id : Nat
  title : String
  message : String
  notification_type : String
  read : Bool
  created_at : Nat
  deriving Repr, DecidableEq

/-- The payload dict passed around by the realtime publish helpers
(`notifications/utils.py`); every key the consumers look up with
`.get` is optional. -/
structure NotificationPayload where
  ptype : Option String
  title : Option String
  message : Option String
  category : Option String
  notification_type : Option String
  task_id : Option Nat
  project_slug : Option String
  deriving Repr, DecidableEq

/-- Model of `update_data` dict built by `TaskViewSet.perform_create`
(`tasks/views.py` lines 131-137). -/
structure TaskUpdateData where
  task_id : Nat
  task_title : String
  status : String
  assignee : Option String
  created_by : String
  deriving Repr, DecidableEq

/-- A loosely typed Python value, for call sites that pass positional
arguments of mixed shapes (`broadcast_project_update`). -/
inductive PyObj where
  | str (s : String)
  | taskUpdate (d : TaskUpdateData)
  | pyNone
  deriving Repr, DecidableEq

/-- Events posted through the channel layer (`group_send`); the `type` key
of each event names the consumer method that handles it. -/
inductive ChannelEvent where
  | notification_message (payload : NotificationPayload)
  | user_joined (userId : Nat) (username : String) (full_name : String)
  | user_left (userId : Nat) (username : String)
  | typing_indicator (userId : Nat) (username : String) (isTyping : Bool)
      (field1 : Option String) (taskId : Option Nat)
  | cursor_update (userId : Nat) (username : String) (position : String)
      (elementId : Option String)
  | user_focus (userId : Nat) (username : String) (taskId : Option Nat)
      (action : String)
  | project_broadcast (update_data : PyObj) (updated_by : PyObj)
  deriving Repr, DecidableEq

/-- Model of `projects/models.py` summary fields used by `_get_project_summary`. -/
structure ProjectSummary where
  id : Nat
  name : String
  slug : String
  status : String
  task_count : Nat
  deriving Repr, DecidableEq

/-- Entry of the per-project online-user cache dict
(`_add_online_user`). -/
structure OnlineUser where
  id : Nat
  username : String
  full_name : String
  deriving Repr, DecidableEq

/-- Task dict inside `_get_full_project_data`. -/
structure TaskJson where
  id : Nat
  title : String
  status : String
  priority : Option String
  assignee_id : Option Nat
  deriving Repr, DecidableEq

/-- Model of `_get_full_project_data` result. -/
structure FullProjectData where
  id : Nat
  name : String
  slug : String
  description : String
  status : String
  tasks : List TaskJson
  deriving Repr, DecidableEq

/-- Frames the gateway serializes back to one client. -/
inductive OutFrame where
  | connectionEstablishedProject (slug : String) (summary : Option ProjectSummary)
      (online : List OnlineUser) (userId : Nat) (username : String) (role : String)
  | pong (timestamp1 : Option String)
  | errorFrame (message : String) (code : Option String)
  | notificationMarkedRead (notificationId : Nat) (unread : Nat)
  | allNotificationsMarkedRead (marked : Nat) (category : Option String) (unread : Nat)
  | unreadCount (count : Nat) (category : Option String)
  | recentNotifications (ns : List NotificationJson) (limit offset : Nat)
      (category : Option String)
  | subscribed (categories : List String)
  | unsubscribed (categories : List String)
  | notificationDeleted (notificationId : Nat)
  | notificationFrame (payload : NotificationPayload)
  | onlineUsers (users : List OnlineUser)
  | syncResponse (projectData : Option FullProjectData)
  deriving Repr, DecidableEq

/-- Effects a consumer performs on its transport and on the channel
layer. -/
inductive Action where
  | send (f : OutFrame)
  | close (code : Nat)
  | accept
  | groupAdd (group : String)
  | groupDiscard (group : String)
  | groupSend (group : String) (event : ChannelEvent)
  deriving Repr, DecidableEq

namespace NotificationConsumer

/-- Per-connection state of `NotificationConsumer` plus the notification
table it queries and the current time. -/
structure ConnState where
  userId : Nat
  subscribed_categories : List String
  table : List Notification
  now : Nat
  deriving Repr, DecidableEq

/-- Model of `_get_unread_count` (`notifications/consumers.py` lines 334-347):
`Notification.objects.filter(recipient=self.user, read=False)`, optionally
narrowed by `notification_type`, then `.count()`. -/
def get_unread_count (table : List Notification) (userId : Nat)
    (category : Option String) : Except PyError Nat :=
  match Notification.qsFilter table "recipient" (.nat userId) with
  | .error e => .error e
  | .ok qs =>
    match Notification.qsFilter qs "read" (.bool false) with
    | .error e => .error e
    | .ok qs =>
      match (match strTruthy category with
             | some c => Notification.qsFilter qs "notification_type" (.str c)
             | none => .ok qs) with
      | .error e => .error e
      | .ok qs => .ok qs.length

/-- The per-row dict of `_get_recent_notifications`: reads `n.id`,
`n.title`, `n.message`, `n.notification_type`, `n.read`, `n.created_at`.
`n.read` is a plain attribute access and the model has no such attribute
(`is_read` is the column), so it raises `AttributeError`. -/
def serializeRow (n : Notification) : Except PyError NotificationJson :=
  match n.attr "read" with
  | some (.bool b) =>
    Except.ok
      { id := n.id, title := n.title, message := n.message,
        notification_type := n.notification_type, read := b,
        created_at := n.created_at }
  | some _ => Except.error (.attributeError "read")
  | none => Except.error (.attributeError "read")

/-- The list comprehension of `_get_recent_notifications`: rows serialized
left to right, the first failing attribute access aborting the whole
call. -/
def serializeRows : List Notification → Except PyError (List NotificationJson)
  | [] => Except.ok []
  | n :: ns =>
    match serializeRow n with
    | .error e => .error e
    | .ok j =>
      match serializeRows ns with
      | .error e => .error e
      | .ok rest => .ok (j :: rest)

/-- Model of `_get_recent_notifications` (`notifications/consumers.py` lines
349-375): filter by recipient, optional category and unread flags, order
by `-created_at`, slice `[offset : offset + limit]`, serialize. -/
def get_recent_notifications (table : List Notification) (userId : Nat)
    (limit offset : Nat) (category : Option String) (unread_only : Bool) :
    Except PyError (List NotificationJson) :=
  match Notification.qsFilter table "recipient" (.nat userId) with
  | .error e => .error e
  | .ok qs =>
    match (match strTruthy category with
           | some c => Notification.qsFilter qs "notification_type" (.str c)
           | none => .ok qs) with
    | .error e => .error e
    | .ok qs =>
      match (if unread_only then Notification.qsFilter qs "read" (.bool false) else .ok qs) with
      | .error e => .error e
      | .ok qs =>
        serializeRows (((Notification.orderByCreatedAtDesc qs).drop offset).take limit)

/-- Model of `_mark_notification_read`: `objects.get(id=…, recipient=self.user)`,
then the model's `mark_as_read`; `False` when no such row exists. -/
def mark_notification_read (table : List Notification) (userId : Nat)
    (notificationId : Nat) (now : Nat) : Bool × List Notification :=
  match table.find? (fun n => n.id == notificationId && n.recipient == userId) with
  | some _ =>
    (true,
     table.map (fun n =>
       if n.id == notificationId && n.recipient == userId then n.mark_as_read now else n))
  | none => (false, table)

/-- Model of `_mark_all_notifications_read` (`notifications/consumers.py` lines
397-410): the queryset is built with `filter(recipient=self.user,
read=False)` and updated with `update(read=True, read_at=now)`. -/
def mark_all_notifications_read (table : List Notification) (userId : Nat)
    (category : Option String) (now : Nat) :
    Except PyError (Nat × List Notification) :=
  match Notification.qsFilter table "recipient" (.nat userId) with
  | .error e => .error e
  | .ok qs =>
    match Notification.qsFilter qs "read" (.bool false) with
    | .error e => .error e
    | .ok qs =>
      match (match strTruthy category with
             | some c => Notification.qsFilter qs "notification_type" (.str c)
             | none => .ok qs) with
      | .error e => .error e
      | .ok qs =>
        Notification.qsUpdate table (fun n => decide (n ∈ qs))
          [("read", .bool true), ("read_at", .optNat (some now))]

/-- Model of `_delete_notification`: `objects.get(id=…, recipient=self.user)` then
`delete()`; `False` when no such row exists. -/
def delete_notification (table : List Notification) (userId : Nat)
    (notificationId : Nat) : Bool × List Notification :=
  match table.find? (fun n => n.id == notificationId && n.recipient == userId) with
  | some _ =>
    (true, table.filter (fun n => !(n.id == notificationId && n.recipient == userId)))
  | none => (false, table)

end NotificationConsumer

/-- A parsed inbound JSON object: the keys the handlers read via
`data.get(...)`.  `ptype` is `data.get('type', '')` (a missing key is the
empty string). -/
structure InFrame where
  ptype : String
  notification_id : Option Nat
  category : Option String
  limit : Option Nat
  offset : Option Nat
  unread_only : Option Bool
  categories : Option (List String)
  timestamp1 : Option String
  field1 : Option String
  task_id : Option Nat
  position : Option String
  element_id : Option String
  deriving Repr, DecidableEq

/-- The frame with every key absent. -/
def emptyFrame : InFrame :=
  { ptype := "", notification_id := none, category := none, limit := none,
    offset := none, unread_only := none, categories := none,
    timestamp1 := none, field1 := none, task_id := none, position := none,
    element_id := none }

/-- Raw text received on a connection: either text `json.loads` rejects
(`JSONDecodeError`) or a parsed object. -/
inductive InText where
  | invalidJson (raw : String)
  | json (f : InFrame)
  deriving Repr, DecidableEq

namespace NotificationConsumer

/-- Result of running one handler: state after its effects, the frames it
sent before returning or raising, and the exception if it raised. -/
def HandlerResult := ConnState × List Action × Option PyError

/-- Model of `_handle_ping`. -/
def handle_ping (st : ConnState) (f : InFrame) : HandlerResult :=
  (st, [.send (.pong f.timestamp1)], none)

/-- Model of `_handle_mark_read`: mutates the row, then recomputes the unread count
(which raises `FieldError`, see `get_unread_count`). -/
def handle_mark_read (st : ConnState) (f : InFrame) : HandlerResult :=
  match natTruthy f.notification_id with
  | none => (st, [.send (.errorFrame "notification_id is required" (some "MISSING_PARAM"))], none)
  | some nid =>
    let (success, table1) := mark_notification_read st.table st.userId nid st.now
    let st1 := { st with table := table1 }
    if success then
      match get_unread_count table1 st.userId none with
      | .error e => (st1, [], some e)
      | .ok u => (st1, [.send (.notificationMarkedRead nid u)], none)
    else (st1, [.send (.errorFrame "Notification not found" (some "NOT_FOUND"))], none)

/-- Model of `_handle_mark_all_read` (`notifications/consumers.py` lines 211-221):
`'unread_count': 0 if not category else await self._get_unread_count()`. -/
def handle_mark_all_read (st : ConnState) (f : InFrame) : HandlerResult :=
  match mark_all_notifications_read st.table st.userId f.category st.now with
  | .error e => (st, [], some e)
  | .ok (count, table1) =>
    let st1 := { st with table := table1 }
    match strTruthy f.category with
    | none => (st1, [.send (.allNotificationsMarkedRead count f.category 0)], none)
    | some _ =>
      match get_unread_count table1 st.userId none with
      | .error e => (st1, [], some e)
      | .ok u => (st1, [.send (.allNotificationsMarkedRead count f.category u)], none)

/-- Model of `_handle_get_unread_count`. -/
def handle_get_unread_count (st : ConnState) (f : InFrame) : HandlerResult :=
  match get_unread_count st.table st.userId f.category with
  | .error e => (st, [], some e)
  | .ok c => (st, [.send (.unreadCount c f.category)], none)

/-- Model of `_handle_get_recent` (`notifications/consumers.py` lines 234-254):
`limit = min(data.get('limit', 10), 50)` — capped at 50, default 10. -/
def handle_get_recent (st : ConnState) (f : InFrame) : HandlerResult :=
  let limit := min (f.limit.getD 10) 50
  let offset := f.offset.getD 0
  let category := f.category
  let unread_only := f.unread_only.getD false
  match get_recent_notifications st.table st.userId limit offset category unread_only with
  | .error e => (st, [], some e)
  | .ok ns => (st, [.send (.recentNotifications ns limit offset category)], none)

/-- Set union on the subscription set (`set.update`). -/
def setUnion (a b : List String) : List String :=
  a ++ b.filter (fun c => decide (c ∉ a))

/-- Model of `_handle_subscribe_categories`. -/
def handle_subscribe_categories (st : ConnState) (f : InFrame) : HandlerResult :=
  let cats := f.categories.getD []
  let st1 := { st with subscribed_categories := setUnion st.subscribed_categories cats }
  (st1, [.send (.subscribed st1.subscribed_categories)], none)

/-- Model of `_handle_unsubscribe_categories` (`set.difference_update`). -/
def handle_unsubscribe_categories (st : ConnState) (f : InFrame) : HandlerResult :=
  let cats := f.categories.getD []
  let st1 := { st with
    subscribed_categories := st.subscribed_categories.filter (fun c => decide (c ∉ cats)) }
  (st1, [.send (.unsubscribed st1.subscribed_categories)], none)

/-- Model of `_handle_delete_notification`. -/
def handle_delete_notification (st : ConnState) (f : InFrame) : HandlerResult :=
  match natTruthy f.notification_id with
  | none => (st, [.send (.errorFrame "notification_id is required" (some "MISSING_PARAM"))], none)
  | some nid =>
    let (success, table1) := delete_notification st.table st.userId nid
    let st1 := { st with table := table1 }
    if success then (st1, [.send (.notificationDeleted nid)], none)
    else (st1, [.send (.errorFrame "Notification not found" (some "NOT_FOUND"))], none)

/-- The keys of the `handlers` dict in `NotificationConsumer.receive`. -/
def recognizedTypes : List String :=
  ["ping", "mark_read", "mark_all_read", "get_unread_count", "get_recent",
   "subscribe_categories", "unsubscribe_categories", "delete_notification"]

/-- Dispatch to the handler selected from the `handlers` dict (only
reached when `ptype` is one of `recognizedTypes`, so the last arm is
exactly the `delete_notification` entry). -/
def dispatch (st : ConnState) (f : InFrame) : HandlerResult :=
  if f.ptype = "ping" then handle_ping st f
  else if f.ptype = "mark_read" then handle_mark_read st f
  else if f.ptype = "mark_all_read" then handle_mark_all_read st f
  else if f.ptype = "get_unread_count" then handle_get_unread_count st f
  else if f.ptype = "get_recent" then handle_get_recent st f
  else if f.ptype = "subscribe_categories" then handle_subscribe_categories st f
  else if f.ptype = "unsubscribe_categories" then handle_unsubscribe_categories st f
  else handle_delete_notification st f

/-- Model of `NotificationConsumer.receive` (`notifications/consumers.py` lines
150-180): invalid JSON is answered with an `error` frame; an unknown
`type` is answered with an `error` frame; a handler exception is caught
and answered with an `error` frame.  No branch closes the connection. -/
def receive (st : ConnState) (text : InText) : ConnState × List Action :=
  match text with
  | .invalidJson _ =>
    (st, [.send (.errorFrame "Invalid JSON format" (some "INVALID_JSON"))])
  | .json f =>
    if f.ptype ∈ recognizedTypes then
      let (st1, acts, err) := dispatch st f
      match err with
      | some _ =>
        (st1, acts ++ [.send (.errorFrame ("Error processing " ++ f.ptype) (some "HANDLER_ERROR"))])
      | none => (st1, acts)
    else
      (st, [.send (.errorFrame ("Unknown message type: " ++ f.ptype) (some "UNKNOWN_TYPE"))])

/-- Python `a or b` on two optional strings, with string truthiness. -/
def pyOrStr (a b : Option String) : Option String :=
  match strTruthy a with
  | some s => some s
  | none => b

/-- Model of `NotificationConsumer.notification_message` (lines 295-308): the
channel-layer handler for a published notification; applies the category
subscription filter and forwards a `notification` frame. -/
def notification_message (subscribed : List String)
    (payload : NotificationPayload) : List Action :=
  if subscribed ≠ [] then
    match strTruthy (pyOrStr payload.category payload.notification_type) with
    | some c =>
      if c ∈ subscribed then [.send (.notificationFrame payload)] else []
    | none => [.send (.notificationFrame payload)]
  else [.send (.notificationFrame payload)]

end NotificationConsumer

/-- Model of `accounts/models.py`, `class CustomUser` (fields the gateway reads).
Role values are the uppercase `CustomUser.Role` choices such as
`"ADMIN"`, `"PM"`, `"DEV"`. -/
structure User where
  id : Nat
  username : String
  full_name : String
  role : String
  is_active : Bool
  deriving Repr, DecidableEq

/-- Model of `projects/models.py`, `class Project` (fields the gateway reads);
`slug` is a unique column. -/
structure Project where
  id : Nat
  name : String
  slug : String
  description : String
  status : String
  owner : Nat
  manager : Option Nat
  is_public : Bool
  deriving Repr, DecidableEq

/-- Model of `projects/models.py`, `class ProjectMember`; `(project, user)` is
unique together, role values are the uppercase `ProjectMember.Role`
choices. -/
structure ProjectMember where
  project : Nat
  user : Nat
  role : String
  deriving Repr, DecidableEq

/-- Model of `tasks/models.py`, `class Task` (fields the gateway reads). -/
structure Task where
  id : Nat
  title : String
  status : String
  priority : Option String
  assignee : Option Nat
  created_by : Nat
  project : Nat
  deriving Repr, DecidableEq

/-- The relational data the project consumer queries. -/
structure ProjectEnv where
  projects : List Project
  memberships : List ProjectMember
  tasks : List Task
  deriving Repr, DecidableEq

/-- The shared cache dicts the project consumer mutates: online users per
project slug (`project_online_<slug>`) and task focus per project slug
(`project_focus_<slug>`). -/
structure SharedCache where
  online : List (String × List (Nat × OnlineUser))
  focus : List (String × List (Nat × Nat))
  deriving Repr, DecidableEq

/-- Write one key of an association list (a Python dict write): replace
the entry for the key, or append one. -/
def assocSet {α β : Type} [DecidableEq α] : List (α × β) → α → β → List (α × β)
  | [], k, v => [(k, v)]
  | e :: es, k, v => if e.1 = k then (k, v) :: es else e :: assocSet es k v

/-- The user in the connection scope: `AnonymousUser` or an authenticated
`CustomUser` (whose `is_authenticated` is always true). -/
inductive ScopeUser where
  | anonymous
  | user (u : User)
  deriving Repr, DecidableEq

namespace ProjectConsumer

/-- Dict returned by `_check_project_access` on success. -/
structure AccessInfo where
  id : Nat
  role : String
  can_edit : Bool
  deriving Repr, DecidableEq

/-- Model of `_check_project_access` (`projects/consumers.py` lines 381-416):
`Project.objects.get(slug=…)` (`DoesNotExist` → `None`), then grants
access when the user is the owner, the manager, a `ProjectMember`, the
project is public, or the user's role is `'admin'` or `'manager'`. -/
def check_project_access (env : ProjectEnv) (user : User) (slug : String) :
    Option AccessInfo :=
  match env.projects.find? (fun p => p.slug == slug) with
  | none => none
  | some project =>
    let is_owner := project.owner == user.id
    let is_manager := project.manager == some user.id
    let member := env.memberships.find?
      (fun m => m.project == project.id && m.user == user.id)
    let is_member := member.isSome
    let is_public := project.is_public
    let is_admin := user.role == "admin" || user.role == "manager"
    if is_owner || is_manager || is_member || is_public || is_admin then
      let role := if is_owner then "owner"
        else if is_manager then "manager"
        else match member with
          | some m => m.role
          | none => "viewer"
      some { id := project.id, role := role,
             can_edit := decide (role ∈ ["owner", "manager", "editor", "admin"]) }
    else none

/-- Model of `_get_project_summary`: `DoesNotExist` → the empty dict, modeled as
`none`. -/
def get_project_summary (env : ProjectEnv) (slug : String) :
    Option ProjectSummary :=
  match env.projects.find? (fun p => p.slug == slug) with
  | none => none
  | some project =>
    some { id := project.id, name := project.name, slug := project.slug,
           status := project.status,
           task_count := (env.tasks.filter (fun t => t.project == project.id)).length }

/-- Model of `_get_full_project_data`: project with its first 100 tasks. -/
def get_full_project_data (env : ProjectEnv) (slug : String) :
    Option FullProjectData :=
  match env.projects.find? (fun p => p.slug == slug) with
  | none => none
  | some project =>
    let tasks := ((env.tasks.filter (fun t => t.project == project.id)).take 100).map
      (fun t => { id := t.id, title := t.title, status := t.status,
                  priority := t.priority, assignee_id := t.assignee : TaskJson })
    some { id := project.id, name := project.name, slug := project.slug,
           description := project.description, status := project.status,
           tasks := tasks }

/-- Model of `_get_online_users`: the values of the `project_online_<slug>` cache
dict. -/
def get_online_users (cache : SharedCache) (slug : String) : List OnlineUser :=
  (((cache.online.find? (fun e => e.1 == "project_online_" ++ slug)).map
    (fun e => e.2)).getD []).map (fun e => e.2)

/-- Model of `_add_online_user`: insert the user into the `project_online_<slug>`
dict. -/
def add_online_user (cache : SharedCache) (slug : String) (u : User) :
    SharedCache :=
  let key := "project_online_" ++ slug
  let dict := ((cache.online.find? (fun e => e.1 == key)).map (fun e => e.2)).getD []
  { cache with online := (assocSet cache.online key
      (assocSet dict u.id { id := u.id, username := u.username, full_name := u.full_name })) }

/-- Model of `_remove_online_user`. -/
def remove_online_user (cache : SharedCache) (slug : String) (u : User) :
    SharedCache :=
  let key := "project_online_" ++ slug
  let dict := ((cache.online.find? (fun e => e.1 == key)).map (fun e => e.2)).getD []
  { cache with online := (assocSet cache.online key (dict.filter (fun e => e.1 != u.id))) }

/-- Model of `_set_user_focus`. -/
def set_user_focus (cache : SharedCache) (slug : String) (userId taskId : Nat) :
    SharedCache :=
  let key := "project_focus_" ++ slug
  let dict := ((cache.focus.find? (fun e => e.1 == key)).map (fun e => e.2)).getD []
  { cache with focus := assocSet cache.focus key (assocSet dict userId taskId) }

/-- Model of `_clear_user_focus`. -/
def clear_user_focus (cache : SharedCache) (slug : String) (userId : Nat) :
    SharedCache :=
  let key := "project_focus_" ++ slug
  let dict := ((cache.focus.find? (fun e => e.1 == key)).map (fun e => e.2)).getD []
  { cache with focus := assocSet cache.focus key (dict.filter (fun e => e.1 != userId)) }

/-- Model of `ProjectConsumer.connect` (`projects/consumers.py` lines 48-118).
Order of effects on success: join the `project_<slug>` group, record the
online user, accept, broadcast `user_joined`, send
`connection_established`.  Unauthenticated → close 4001; access denied
(including a nonexistent slug) → close 4003, with no group join, no cache
write and no broadcast. -/
def connect (env : ProjectEnv) (cache : SharedCache) (su : ScopeUser)
    (slug : String) : SharedCache × List Action :=
  match su with
  | .anonymous => (cache, [.close 4001])
  | .user u =>
    match check_project_access env u slug with
    | none => (cache, [.close 4003])
    | some info =>
      let group_name := "project_" ++ slug
      let cache1 := add_online_user cache slug u
      (cache1,
       [.groupAdd group_name,
        .accept,
        .groupSend group_name (.user_joined u.id u.username u.full_name),
        .send (.connectionEstablishedProject slug (get_project_summary env slug)
          (get_online_users cache1 slug) u.id u.username info.role)])

/-- Per-connection state of an admitted `ProjectConsumer`. -/
structure RoomState where
  user : User
  project_slug : String
  cache : SharedCache
  deriving Repr, DecidableEq

/-- Model of `self.group_name` of an admitted room connection. -/
def groupName (st : RoomState) : String := "project_" ++ st.project_slug

/-- Model of `_handle_ping`. -/
def handle_ping (st : RoomState) (f : InFrame) : RoomState × List Action :=
  (st, [.send (.pong f.timestamp1)])

/-- Model of `_handle_typing_start`. -/
def handle_typing_start (st : RoomState) (f : InFrame) : RoomState × List Action :=
  (st, [.groupSend (groupName st)
    (.typing_indicator st.user.id st.user.username true f.field1 f.task_id)])

/-- Model of `_handle_typing_stop`. -/
def handle_typing_stop (st : RoomState) (f : InFrame) : RoomState × List Action :=
  (st, [.groupSend (groupName st)
    (.typing_indicator st.user.id st.user.username false f.field1 f.task_id)])

/-- Model of `_handle_cursor_position` (`if position:` — falsy positions are
dropped). -/
def handle_cursor_position (st : RoomState) (f : InFrame) : RoomState × List Action :=
  match strTruthy f.position with
  | some pos =>
    (st, [.groupSend (groupName st)
      (.cursor_update st.user.id st.user.username pos f.element_id)])
  | none => (st, [])

/-- Model of `_handle_get_online_users`. -/
def handle_get_online_users (env : ProjectEnv) (st : RoomState) (f : InFrame) :
    RoomState × List Action :=
  (st, [.send (.onlineUsers (get_online_users st.cache st.project_slug))])

/-- Model of `_handle_request_sync`. -/
def handle_request_sync (env : ProjectEnv) (st : RoomState) (f : InFrame) :
    RoomState × List Action :=
  (st, [.send (.syncResponse (get_full_project_data env st.project_slug))])

/-- Model of `_handle_focus_task` (`if task_id:`). -/
def handle_focus_task (st : RoomState) (f : InFrame) : RoomState × List Action :=
  match natTruthy f.task_id with
  | some taskId =>
    ({ st with cache := set_user_focus st.cache st.project_slug st.user.id taskId },
     [.groupSend (groupName st)
       (.user_focus st.user.id st.user.username (some taskId) "focus")])
  | none => (st, [])

/-- Model of `_handle_unfocus_task` (no truthiness guard on `task_id`). -/
def handle_unfocus_task (st : RoomState) (f : InFrame) : RoomState × List Action :=
  ({ st with cache := clear_user_focus st.cache st.project_slug st.user.id },
   [.groupSend (groupName st)
     (.user_focus st.user.id st.user.username f.task_id "unfocus")])

/-- The keys of the `handlers` dict in `ProjectConsumer.receive`. -/
def recognizedTypes : List String :=
  ["ping", "typing_start", "typing_stop", "cursor_position",
   "get_online_users", "request_sync", "focus_task", "unfocus_task"]

/-- Dispatch to the handler selected from the `handlers` dict (only
reached when `ptype` is one of `recognizedTypes`). -/
def dispatch (env : ProjectEnv) (st : RoomState) (f : InFrame) :
    RoomState × List Action :=
  if f.ptype = "ping" then handle_ping st f
  else if f.ptype = "typing_start" then handle_typing_start st f
  else if f.ptype = "typing_stop" then handle_typing_stop st f
  else if f.ptype = "cursor_position" then handle_cursor_position st f
  else if f.ptype = "get_online_users" then handle_get_online_users env st f
  else if f.ptype = "request_sync" then handle_request_sync env st f
  else if f.ptype = "focus_task" then handle_focus_task st f
  else handle_unfocus_task st f

/-- Model of `ProjectConsumer.receive` (`projects/consumers.py` lines 149-178):
invalid JSON and unknown types are answered with `error` frames; no branch
closes the connection. -/
def receive (env : ProjectEnv) (st : RoomState) (text : InText) :
    RoomState × List Action :=
  match text with
  | .invalidJson _ =>
    (st, [.send (.errorFrame "Invalid JSON format" (some "INVALID_JSON"))])
  | .json f =>
    if f.ptype ∈ recognizedTypes then dispatch env st f
    else
      (st, [.send (.errorFrame ("Unknown message type: " ++ f.ptype) (some "UNKNOWN_TYPE"))])

end ProjectConsumer

/-- The decoded claims of a JWT access token (`rest_framework_simplejwt`
payload keys the validator reads). -/
structure TokenPayload where
  user_id : Option Nat
  exp : Option Nat
  jti : Option String
  deriving Repr, DecidableEq

/-- Model of `TokenValidationResult` (`config/websocket_auth.py` lines 17-23):
`user` is the authenticated user id (`none` models `AnonymousUser`). -/
structure TokenValidationResult where
  user : Option Nat
  error : Option String
  is_valid : Bool
  deriving Repr, DecidableEq

/-- Environment of the token validator: `AccessToken(...)` decoding
(`none` = the library rejects the string as malformed; the library's own
expiry verification is represented by the validator's explicit `exp`
check), the user table, and the `OutstandingToken`/`BlacklistedToken`
rows keyed by `jti`. -/
structure AuthEnv where
  decode : String → Option TokenPayload
  users : List User
  outstanding_jtis : List String
  blacklisted_jtis : List String

/-- A Django cache of `Nat` values: entries carry an absolute expiry
instant; `cache.set(key, v, ttl)` at time `now` stores expiry
`now + ttl`. -/
def NatCache := List (String × Nat × Nat)

/-- Model of `cache.get(key)`: the stored value while the entry is live. -/
def cacheGet (c : NatCache) (key : String) (now : Nat) : Option Nat :=
  match c.find? (fun e => e.1 == key) with
  | some e => if now < e.2.2 then some e.2.1 else none
  | none => none

/-- Model of `cache.set(key, v, ttl)`. -/
def cacheSet (c : NatCache) (key : String) (v : Nat) (ttl : Nat) (now : Nat) :
    NatCache :=
  assocSet c key (v, now + ttl)

/-- Model of `cache.delete(key)`. -/
def cacheDelete (c : NatCache) (key : String) : NatCache :=
  c.filter (fun e => e.1 != key)

/-- The cache key of a token: `f"ws_token_{hash(token_string)}"`; the hash
is abstracted as the token string itself. -/
def tokenCacheKey (s : String) : String := "ws_token_" ++ s

/-- The `try` body of `get_user_from_token` (`config/websocket_auth.py`
lines 46-92): decode, check payload `user_id`, explicit expiry check
(`if exp and time.time() > exp`), `jti` blacklist check, active-user
lookup, then cache the success with
`cache_ttl = min(300, max(0, exp - time.time())) if exp else 300`. -/
def validateToken (env : AuthEnv) (c : NatCache) (now : Nat) (s : String) :
    TokenValidationResult × NatCache :=
  match env.decode s with
  | none => ({ user := none, error := some "Invalid token", is_valid := false }, c)
  | some payload =>
    match natTruthy payload.user_id with
    | none => ({ user := none, error := some "Invalid token payload", is_valid := false }, c)
    | some user_id =>
      let isExpired := match natTruthy payload.exp with
        | some e => decide (now > e)
        | none => false
      if isExpired then
        ({ user := none, error := some "Token expired", is_valid := false }, c)
      else
        let jtiRevoked :=
          match strTruthy payload.jti with
          | some j => decide (j ∈ env.outstanding_jtis) && decide (j ∈ env.blacklisted_jtis)
          | none => false
        if jtiRevoked then
          ({ user := none, error := some "Token has been revoked", is_valid := false }, c)
        else
          match env.users.find? (fun u => u.id == user_id && u.is_active) with
          | none =>
            ({ user := none, error := some "User not found or inactive", is_valid := false }, c)
          | some _ =>
            let cache_ttl :=
              match natTruthy payload.exp with
              | some e => min 300 (max 0 (e - now))
              | none => 300
            ({ user := some user_id, error := none, is_valid := true },
             cacheSet c (tokenCacheKey s) user_id cache_ttl now)

/-- Model of `get_user_from_token` (`config/websocket_auth.py` lines 26-92): empty
token short-circuits; a live cache entry is served after an active-user
lookup (a stale user id deletes the entry and falls through to full
validation). -/
def get_user_from_token (env : AuthEnv) (c : NatCache) (now : Nat)
    (token_string : Option String) : TokenValidationResult × NatCache :=
  match strTruthy token_string with
  | none => ({ user := none, error := some "No token provided", is_valid := false }, c)
  | some s =>
    let cache_key := tokenCacheKey s
    match natTruthy (cacheGet c cache_key now) with
    | some uid =>
      match env.users.find? (fun u => u.id == uid && u.is_active) with
      | some u => ({ user := some u.id, error := none, is_valid := true }, c)
      | none => validateToken env (cacheDelete c cache_key) now s
    | none => validateToken env c now s

namespace JWTAuthMiddleware

/-- Model of `RATE_LIMIT_CONNECTIONS` — max connection attempts per window per
address. -/
def RATE_LIMIT_CONNECTIONS : Nat := 10

/-- Model of `RATE_LIMIT_WINDOW` — window length in seconds. -/
def RATE_LIMIT_WINDOW : Nat := 60

/-- Connection scope fields the middleware reads: the parsed query
parameters (`parse_qs` result) and the relevant headers. -/
structure Scope where
  query_params : List (String × List String)
  authorization : Option String
  sec_websocket_protocol : Option String
  x_forwarded_for : Option String
  x_real_ip : Option String
  client : Option String
  deriving Repr, DecidableEq

/-- Model of `_extract_token` (`config/websocket_auth.py` lines 169-201): query
parameter, then `Authorization: Bearer`, then the
`Sec-WebSocket-Protocol` list. -/
def extract_token (scope : Scope) : Option String :=
  let token := ((scope.query_params.lookup "token").getD []).head?
  match token with
  | some t => some t
  | none =>
    let auth_header := scope.authorization.getD ""
    if auth_header.startsWith "Bearer " then some (auth_header.drop 7)
    else if auth_header.startsWith "bearer " then some (auth_header.drop 7)
    else
      let protocol_header := scope.sec_websocket_protocol.getD ""
      if protocol_header ≠ "" then
        match ((protocol_header.splitOn ",").map (fun p => p.trim)).find?
            (fun p => p.startsWith "access_token.") with
        | some p => some (p.replace "access_token." "")
        | none => none
      else none

/-- Model of `_get_client_ip` (`config/websocket_auth.py` lines 203-221). -/
def get_client_ip (scope : Scope) : String :=
  let xff := scope.x_forwarded_for.getD ""
  if xff ≠ "" then (((xff.splitOn ",").head?).getD "").trim
  else
    let xri := scope.x_real_ip.getD ""
    if xri ≠ "" then xri
    else match scope.client with
      | some c => c
      | none => "unknown"

/-- Model of `_check_rate_limit` (`config/websocket_auth.py` lines 223-235):
fixed-window counter in the cache under `ws_ratelimit_<ip>`; at the
ceiling the attempt is denied without touching the counter, otherwise the
counter is incremented with the window as its TTL. -/
def check_rate_limit (c : NatCache) (ip : String) (now : Nat) :
    Bool × NatCache :=
  let cache_key := "ws_ratelimit_" ++ ip
  let current := (cacheGet c cache_key now).getD 0
  if current ≥ RATE_LIMIT_CONNECTIONS then (false, c)
  else (true, cacheSet c cache_key (current + 1) RATE_LIMIT_WINDOW now)

/-- One step of `JWTAuthMiddleware.__call__`, for ordering arguments:
which pieces of work the middleware performs on an attempt. -/
inductive MwStep where
  | rateLimitCheck (ip : String)
  | closeConn (code : Nat) (reason : String)
  | tokenExtraction
  | tokenValidation (token : Option String)
  | passToInner (userId : Option Nat)
  deriving Repr, DecidableEq

/-- Model of `JWTAuthMiddleware.__call__` (`config/websocket_auth.py` lines
126-167) with `ALLOW_ANONYMOUS = False`: rate limit first (deny → close
4029 and return before any token work), then token extraction and
validation, then either close 4001 or pass the scope to the inner
application. -/
def call (env : AuthEnv) (tv : NatCache) (rl : NatCache) (scope : Scope)
    (now : Nat) : (NatCache × NatCache) × List MwStep :=
  let client_ip := get_client_ip scope
  let (allowed, rl1) := check_rate_limit rl client_ip now
  if ¬ allowed then
    ((tv, rl1), [.rateLimitCheck client_ip, .closeConn 4029 "Rate limit exceeded"])
  else
    let token := extract_token scope
    let (validation_result, tv1) := get_user_from_token env tv now token
    if validation_result.is_valid then
      ((tv1, rl1),
       [.rateLimitCheck client_ip, .tokenExtraction, .tokenValidation token,
        .passToInner validation_result.user])
    else
      ((tv1, rl1),
       [.rateLimitCheck client_ip, .tokenExtraction, .tokenValidation token,
        .closeConn 4001 (validation_result.error.getD "Authentication required")])

end JWTAuthMiddleware

/-- Model of `notifications/utils.py`, `send_realtime_notification(user, data)`:
one `group_send` of a `notification_message` event to the user's
notification group `user_<id>_notifications`.  It persists nothing. -/
def send_realtime_notification (userId : Nat) (nd : NotificationPayload) :
    Action :=
  .groupSend ("user_" ++ toString userId ++ "_notifications")
    (.notification_message nd)

/-- Model of `notifications/utils.py`, `broadcast_project_update(project_slug,
update_data, updated_by)`: one `group_send` of a `project_broadcast`
event to the project room group. -/
def broadcast_project_update (project_slug : String) (update_data : PyObj)
    (updated_by : PyObj) : Action :=
  .groupSend ("project_" ++ project_slug) (.project_broadcast update_data updated_by)

namespace TaskViewSet

/-- Model of `TaskViewSet.perform_create` (`tasks/views.py` lines 108-138), run
after the serializer saved the task with `created_by = request.user`.
If the task has an assignee, a realtime `notification_message` is
published to the assignee's notification group; then a
`project_broadcast` is published to the project room — note the call
`broadcast_project_update(task.project.slug, 'task_update', update_data)`
passes the string `'task_update'` as `update_data` and the dict as
`updated_by`.  No `Notification` row is created: the notification table
passes through unchanged. -/
def perform_create (users : List User) (table : List Notification)
    (task : Task) (projectSlug : String) : List Notification × List Action :=
  let username := fun uid =>
    ((users.find? (fun u => u.id == uid)).map (fun u => u.username)).getD ""
  let notifActs :=
    match task.assignee with
    | some a =>
      let notification_data : NotificationPayload :=
        { ptype := some "TASK_ASSIGNED", title := some "New Task Assigned",
          message := some ("You have been assigned to task \"" ++ task.title ++ "\""),
          category := none, notification_type := none,
          task_id := some task.id, project_slug := some projectSlug }
      [send_realtime_notification a notification_data]
    | none => []
  let update_data : TaskUpdateData :=
    { task_id := task.id, task_title := task.title, status := task.status,
      assignee := task.assignee.map username,
      created_by := username task.created_by }
  (table,
   notifActs ++
     [broadcast_project_update projectSlug (.str "task_update") (.taskUpdate update_data)])

end TaskViewSet

/-- The channel layer's per-process group registry: group name → channel
names currently joined. -/
structure GroupRegistry where
  members : List (String × List String)
  deriving Repr, DecidableEq

/-- The channels joined to one group. -/
def GroupRegistry.ofGroup (reg : GroupRegistry) (g : String) : List String :=
  ((reg.members.find? (fun e => e.1 == g)).map (fun e => e.2)).getD []

/-- A currently connected notification-endpoint client: its channel name,
user id and category subscriptions. -/
structure LiveNotifClient where
  channel : String
  userId : Nat
  subscribed_categories : List String
  deriving Repr, DecidableEq

/-- Deliver one action through the channel layer to the connected
notification consumers: a `group_send` of a `notification_message` to a
group reaches every channel joined to that group and runs
`NotificationConsumer.notification_message` there.  Returns
`(channel, frame)` pairs. -/
def deliverNotification (clients : List LiveNotifClient) (reg : GroupRegistry)
    (a : Action) : List (String × OutFrame) :=
  match a with
  | .groupSend g (.notification_message nd) =>
    (reg.ofGroup g).flatMap (fun ch =>
      match clients.find? (fun c => c.channel == ch) with
      | some c =>
        (NotificationConsumer.notification_message c.subscribed_categories nd).filterMap
          (fun act => match act with
            | .send fr => some (ch, fr)
            | _ => none)
      | none => [])
  | _ => []

/-- All frames delivered to notification clients by a list of published
actions. -/
def deliverAll (clients : List LiveNotifClient) (reg : GroupRegistry)
    (acts : List Action) : List (String × OutFrame) :=
  acts.flatMap (deliverNotification clients reg)

/-- Apply one action performed by the consumer owning `channel` to the
group registry (`group_add` / `group_discard`; everything else leaves the
registry unchanged). -/
def applyAction (reg : GroupRegistry) (channel : String) (a : Action) :
    GroupRegistry :=
  match a with
  | .groupAdd g => { members := assocSet reg.members g ((reg.ofGroup g) ++ [channel]) }
  | .groupDiscard g =>
    { members := assocSet reg.members g ((reg.ofGroup g).filter (fun c => c != channel)) }
  | _ => reg

/-- Apply a list of actions to the registry. -/
def applyActions (reg : GroupRegistry) (channel : String) (acts : List Action) :
    GroupRegistry :=
  acts.foldl (fun r a => applyAction r channel a) reg

/-- The channel-layer events published by a list of actions, with their
target groups. -/
def publishedEvents (acts : List Action) : List (String × ChannelEvent) :=
  acts.filterMap (fun a => match a with
    | .groupSend g e => some (g, e)
    | _ => none)

/-! ## Concrete instances used by the witnesses and counterexamples -/

/-- An unread notification for user 7. -/
def sampleNotification : Notification :=
  { id := 1, recipient := 7, notification_type := "TASK_ASSIGNED",
    title := "New Task Assigned", message := "You have been assigned to task \"T\"",
    object_id := some 42, is_read := false, read_at := none, created_at := 100 }

/-- Connection state of user 7 over a table holding
`sampleNotification`. -/
def sampleConnState : NotificationConsumer.ConnState :=
  { userId := 7, subscribed_categories := [], table := [sampleNotification],
    now := 1000 }

/-- Project owner (user 1). -/
def alice : User :=
  { id := 1, username := "alice", full_name := "Alice A", role := "DEV",
    is_active := true }

/-- Authenticated user 2 who is not related to the sample project. -/
def bob : User :=
  { id := 2, username := "bob", full_name := "Bob B", role := "DEV",
    is_active := true }

/-- A private project owned by user 1 with no other members. -/
def sampleProject : Project :=
  { id := 11, name := "Project One", slug := "p1", description := "",
    status := "PLANNING", owner := 1, manager := none, is_public := false }

/-- Environment with the sample project, one explicit membership for
user 1, and no tasks. -/
def sampleProjectEnv : ProjectEnv :=
  { projects := [sampleProject],
    memberships := [{ project := 11, user := 1, role := "MEMBER" }],
    tasks := [] }

/-- Empty shared cache. -/
def emptyCache : SharedCache := { online := [], focus := [] }

/-- A task created by user 5 and assigned to user 3. -/
def sampleTask : Task :=
  { id := 21, title := "T", status := "TODO", priority := none,
    assignee := some 3, created_by := 5, project := 11 }

/-- The users around `sampleTask`: assignee 3, creator 5, bystander 9 —
all members of the project. -/
def taskUsers : List User :=
  [{ id := 3, username := "carol", full_name := "Carol C", role := "DEV", is_active := true },
   { id := 5, username := "dave", full_name := "Dave D", role := "DEV", is_active := true },
   { id := 9, username := "erin", full_name := "Erin E", role := "DEV", is_active := true }]

/-- Registry in which users 3, 5 and 9 each have one connected
notification-endpoint client. -/
def taskRegistry : GroupRegistry :=
  { members :=
      [("user_3_notifications", ["ch3"]),
       ("user_5_notifications", ["ch5"]),
       ("user_9_notifications", ["ch9"])] }

/-- The connected notification clients of users 3, 5 and 9, with no
category filter. -/
def taskClients : List LiveNotifClient :=
  [{ channel := "ch3", userId := 3, subscribed_categories := [] },
   { channel := "ch5", userId := 5, subscribed_categories := [] },
   { channel := "ch9", userId := 9, subscribed_categories := [] }]

/-- A scope carrying only a direct client address, for the rate-limit
scenario. -/
def sampleScope : JWTAuthMiddleware.Scope :=
  { query_params := [("token", ["tok"])], authorization := none,
    sec_websocket_protocol := none, x_forwarded_for := none,
    x_real_ip := none, client := some "10.0.0.9" }

/-- Token environment for the expiry scenario: `"tok"` decodes to user 7
expiring at 1000; the user exists and is active. -/
def sampleAuthEnv : AuthEnv :=
  { decode := fun s =>
      if s = "tok" then some { user_id := some 7, exp := some 1000, jti := none }
      else none,
    users := [{ id := 7, username := "grace", full_name := "Grace G",
                role := "DEV", is_active := true }],
    outstanding_jtis := [], blacklisted_jtis := [] }

/-- An admitted room connection of user 1 on project `p1`. -/
def sampleRoomState : ProjectConsumer.RoomState :=
  { user := alice, project_slug := "p1", cache := emptyCache }

/-- The middleware caches after `k` sequential connection attempts with
the same scope, the `j`-th attempt occurring at time `t j`. -/
def attemptStates (env : AuthEnv) (tv0 rl0 : NatCache)
    (scope : JWTAuthMiddleware.Scope) (t : Nat → Nat) : Nat → NatCache × NatCache
  | 0 => (tv0, rl0)
  | k + 1 =>
    let s := attemptStates env tv0 rl0 scope t k
    (JWTAuthMiddleware.call env s.1 s.2 scope (t k)).1

/-- The work trace of the `(k+1)`-th sequential connection attempt. -/
def attemptTrace (env : AuthEnv) (tv0 rl0 : NatCache)
    (scope : JWTAuthMiddleware.Scope) (t : Nat → Nat) (k : Nat) :
    List JWTAuthMiddleware.MwStep :=
  (JWTAuthMiddleware.call env (attemptStates env tv0 rl0 scope t k).1
    (attemptStates env tv0 rl0 scope t k).2 scope (t k)).2

/-! ## Shared lemmas -/

/-- Serialization preserves the number of rows whenever it succeeds. -/
theorem serializeRows_length (l : List Notification) (ys : List NotificationJson)
    (h : NotificationConsumer.serializeRows l = Except.ok ys) :
    ys.length = l.length := by
  induction l generalizing ys with
  | nil =>
    simp only [NotificationConsumer.serializeRows] at h
    cases h
    rfl
  | cons n ns ih =>
    simp only [NotificationConsumer.serializeRows] at h
    cases hj : NotificationConsumer.serializeRow n with
    | error e => rw [hj] at h; cases h
    | ok j =>
      rw [hj] at h
      cases hr : NotificationConsumer.serializeRows ns with
      | error e => rw [hr] at h; cases h
      | ok rest =>
        rw [hr] at h
        cases h
        simp [ih rest hr]

/-- A successful recent-history query returns at most `limit` rows. -/
theorem get_recent_notifications_length (table : List Notification)
    (userId limit offset : Nat) (category : Option String) (unread_only : Bool)
    (ns : List NotificationJson)
    (h : NotificationConsumer.get_recent_notifications table userId limit offset
          category unread_only = .ok ns) :
    ns.length ≤ limit := by
  unfold NotificationConsumer.get_recent_notifications at h
  split at h
  · cases h
  · split at h
    · cases h
    · split at h
      · cases h
      · rw [serializeRows_length _ _ h]
        calc (((Notification.orderByCreatedAtDesc _).drop offset).take limit).length
            ≤ limit := List.length_take_le _ _

/-- Writing a dict key makes it retrievable. -/
theorem assocSet_find_self (l : NatCache) (k : String) (v : Nat × Nat) :
    (assocSet l k v).find? (fun e => e.1 == k) = some (k, v) := by
  induction l with
  | nil => simp [assocSet]
  | cons e es ih =>
    by_cases h : e.1 = k
    · simp [assocSet, h]
    · simp [assocSet, h, ih]

/-- Reading back a freshly written cache entry respects its expiry. -/
theorem cacheGet_cacheSet_self (c : NatCache) (k : String) (v ttl now t2 : Nat) :
    cacheGet (cacheSet c k v ttl now) k t2 =
      if t2 < now + ttl then some v else none := by
  unfold cacheGet cacheSet
  rw [assocSet_find_self]

/-! ## Claim theorems -/

/-- C2 (code bug): user 7 is connected and holds one unread notification.
`mark_all_read` does not leave the unread count at 0: the consumer's
queryset is built with the keyword `read`, which is not a column of the
`Notification` model (the column is `is_read`), so Django raises
`FieldError`; the handler marks nothing, answers an `error` frame with
code `HANDLER_ERROR`, the table is unchanged and the record stays unread.
`get_unread_count` raises the same `FieldError` instead of returning a
count. -/
theorem mark_all_read_then_unread_count_field_error :
    NotificationConsumer.receive sampleConnState
        (.json { emptyFrame with ptype := "mark_all_read" }) =
      (sampleConnState,
       [.send (.errorFrame "Error processing mark_all_read" (some "HANDLER_ERROR"))]) ∧
    NotificationConsumer.mark_all_notifications_read [sampleNotification] 7 none 1000 =
      .error (.fieldError "read") ∧
    NotificationConsumer.mark_all_notifications_read [sampleNotification] 7
        (some "MENTION") 1000 =
      .error (.fieldError "read") ∧
    NotificationConsumer.get_unread_count [sampleNotification] 7 none =
      .error (.fieldError "read") ∧
    sampleNotification.is_read = false :=
  ⟨by rfl, by rfl, by rfl, by rfl, by rfl⟩

/-- C3 (code bug): the freshly created `sampleNotification` (unread, so
before any read-state mutation) is not returned by a `get_recent` query
of its recipient: serializing a row reads the attribute `read`, which the
model does not define (`is_read` is the column), so the query raises
`AttributeError` and the handler answers an `error` frame instead of the
record. -/
theorem get_recent_roundtrip_attribute_error :
    NotificationConsumer.receive sampleConnState
        (.json { emptyFrame with ptype := "get_recent" }) =
      (sampleConnState,
       [.send (.errorFrame "Error processing get_recent" (some "HANDLER_ERROR"))]) ∧
    NotificationConsumer.get_recent_notifications [sampleNotification] 7 10 0 none false =
      .error (.attributeError "read") ∧
    sampleNotification.is_read = false :=
  ⟨by rfl, by rfl, by rfl⟩

/-- C9: on a `get_recent` request the limit actually used is
`min(data.get('limit', 10), 50)` — an omitted limit defaults to 10, a
limit of 50 or more is clamped to 50 before the query runs — and any
`recent_notifications` frame the handler answers carries that clamped
limit and at most 50 rows. -/
theorem get_recent_limit_clamped (st : NotificationConsumer.ConnState)
    (f : InFrame) (hf : f.ptype = "get_recent") :
    (f.limit = none → min (f.limit.getD 10) 50 = 10) ∧
    (∀ l, f.limit = some l → 50 ≤ l → min (f.limit.getD 10) 50 = 50) ∧
    (∀ ns lim off cat,
        Action.send (OutFrame.recentNotifications ns lim off cat) ∈
          (NotificationConsumer.receive st (.json f)).2 →
        lim = min (f.limit.getD 10) 50 ∧ ns.length ≤ 50) := by
  refine ⟨?_, ?_, ?_⟩
  · intro h; rw [h]; rfl
  · intro l hl hge; rw [hl]; simpa using Nat.min_eq_right hge
  · intro ns lim off cat hmem
    have hrec : f.ptype ∈ NotificationConsumer.recognizedTypes := by
      rw [hf]; decide
    have hd : NotificationConsumer.dispatch st f =
        NotificationConsumer.handle_get_recent st f := by
      unfold NotificationConsumer.dispatch
      rw [hf]
      simp
    cases hq : NotificationConsumer.get_recent_notifications st.table st.userId
        (min (f.limit.getD 10) 50) (f.offset.getD 0) f.category
        (f.unread_only.getD false) with
    | error e =>
      have hacts : (NotificationConsumer.receive st (.json f)).2 =
          [.send (.errorFrame ("Error processing " ++ f.ptype) (some "HANDLER_ERROR"))] := by
        simp only [NotificationConsumer.receive, if_pos hrec, hd,
          NotificationConsumer.handle_get_recent, hq, List.nil_append]
      rw [hacts] at hmem
      simp at hmem
    | ok ns0 =>
      have hacts : (NotificationConsumer.receive st (.json f)).2 =
          [.send (.recentNotifications ns0 (min (f.limit.getD 10) 50)
            (f.offset.getD 0) f.category)] := by
        simp only [NotificationConsumer.receive, if_pos hrec, hd,
          NotificationConsumer.handle_get_recent, hq]
      rw [hacts] at hmem
      simp only [List.mem_singleton, Action.send.injEq,
        OutFrame.recentNotifications.injEq] at hmem
      obtain ⟨hns, hlim, _, _⟩ := hmem
      subst hns hlim
      refine ⟨rfl, ?_⟩
      exact le_trans (get_recent_notifications_length _ _ _ _ _ _ _ hq)
        (min_le_right _ _)

/-- C9 witness: a `get_recent` frame requesting 500 rows from
`sampleConnState`. -/
theorem get_recent_limit_clamped_witness :
    ({ emptyFrame with ptype := "get_recent", limit := some 500 } : InFrame).ptype =
        "get_recent" ∧
    (∀ l, ({ emptyFrame with ptype := "get_recent", limit := some 500 } : InFrame).limit =
        some l → 50 ≤ l →
        min (({ emptyFrame with ptype := "get_recent", limit := some 500 } : InFrame).limit.getD 10) 50 = 50) := by
  refine ⟨rfl, ?_⟩
  exact (get_recent_limit_clamped sampleConnState
    { emptyFrame with ptype := "get_recent", limit := some 500 } rfl).2.1

/-- C8: on either endpoint, a frame that is not valid JSON or whose type
is not a recognized handler type is answered with an `error` frame on the
same connection, and the resulting action list contains no close — the
connection stays open. -/
theorem malformed_frame_error_no_close (stN : NotificationConsumer.ConnState)
    (env : ProjectEnv) (stP : ProjectConsumer.RoomState) (raw : String)
    (f g : InFrame)
    (hf : f.ptype ∉ NotificationConsumer.recognizedTypes)
    (hg : g.ptype ∉ ProjectConsumer.recognizedTypes) :
    NotificationConsumer.receive stN (.invalidJson raw) =
      (stN, [.send (.errorFrame "Invalid JSON format" (some "INVALID_JSON"))]) ∧
    NotificationConsumer.receive stN (.json f) =
      (stN, [.send (.errorFrame ("Unknown message type: " ++ f.ptype)
        (some "UNKNOWN_TYPE"))]) ∧
    ProjectConsumer.receive env stP (.invalidJson raw) =
      (stP, [.send (.errorFrame "Invalid JSON format" (some "INVALID_JSON"))]) ∧
    ProjectConsumer.receive env stP (.json g) =
      (stP, [.send (.errorFrame ("Unknown message type: " ++ g.ptype)
        (some "UNKNOWN_TYPE"))]) := by
  refine ⟨rfl, ?_, rfl, ?_⟩
  · simp [NotificationConsumer.receive, hf]
  · simp [ProjectConsumer.receive, hg]

/-- C8 witness: invalid JSON text and a frame of unknown type `bogus`
against concrete states of both consumers. -/
theorem malformed_frame_error_no_close_witness :
    ({ emptyFrame with ptype := "bogus" } : InFrame).ptype ∉
        NotificationConsumer.recognizedTypes ∧
    ({ emptyFrame with ptype := "bogus" } : InFrame).ptype ∉
        ProjectConsumer.recognizedTypes ∧
    NotificationConsumer.receive sampleConnState (.invalidJson "not json") =
      (sampleConnState,
       [.send (.errorFrame "Invalid JSON format" (some "INVALID_JSON"))]) ∧
    NotificationConsumer.receive sampleConnState
        (.json { emptyFrame with ptype := "bogus" }) =
      (sampleConnState,
       [.send (.errorFrame ("Unknown message type: " ++ "bogus")
         (some "UNKNOWN_TYPE"))]) ∧
    ProjectConsumer.receive sampleProjectEnv sampleRoomState
        (.json { emptyFrame with ptype := "bogus" }) =
      (sampleRoomState,
       [.send (.errorFrame ("Unknown message type: " ++ "bogus")
         (some "UNKNOWN_TYPE"))]) := by
  have h := malformed_frame_error_no_close sampleConnState sampleProjectEnv
    sampleRoomState "not json" { emptyFrame with ptype := "bogus" }
    { emptyFrame with ptype := "bogus" } (by decide) (by decide)
  exact ⟨by decide, by decide, h.1, h.2.1, h.2.2.2⟩

/-- C10: a room connection of an authenticated user whose slug matches no
project is closed with code 4003 — `_check_project_access` turns
`Project.DoesNotExist` into `None` — and that is the same close code
produced for every access denial, including an authenticated non-member
of an existing project, so the two cases are indistinguishable at the
close-code level. -/
theorem nonexistent_room_same_close_code (env : ProjectEnv)
    (cache : SharedCache) (u : User) (slug : String)
    (hnone : env.projects.find? (fun p => p.slug == slug) = none) :
    ProjectConsumer.connect env cache (.user u) slug = (cache, [.close 4003]) ∧
    ∀ (env2 : ProjectEnv) (cache2 : SharedCache) (u2 : User) (slug2 : String),
      ProjectConsumer.check_project_access env2 u2 slug2 = none →
      ProjectConsumer.connect env2 cache2 (.user u2) slug2 =
        (cache2, [.close 4003]) := by
  constructor
  · have hca : ProjectConsumer.check_project_access env u slug = none := by
      unfold ProjectConsumer.check_project_access
      rw [hnone]
    simp [ProjectConsumer.connect, hca]
  · intro env2 cache2 u2 slug2 hca
    simp [ProjectConsumer.connect, hca]

/-- C10 witness: slug `nope` matches no project of `sampleProjectEnv`;
non-member `bob` on the existing `p1` gets the same code. -/
theorem nonexistent_room_same_close_code_witness :
    sampleProjectEnv.projects.find? (fun p => p.slug == "nope") = none ∧
    ProjectConsumer.connect sampleProjectEnv emptyCache (.user alice) "nope" =
      (emptyCache, [.close 4003]) ∧
    ProjectConsumer.connect sampleProjectEnv emptyCache (.user bob) "p1" =
      (emptyCache, [.close 4003]) := by
  have h := nonexistent_room_same_close_code sampleProjectEnv emptyCache alice
    "nope" (by decide)
  exact ⟨by decide, h.1, h.2 sampleProjectEnv emptyCache bob "p1" (by decide)⟩

/-- C7: an authenticated user who is not the owner, not the manager, not
a member, with the project private and a non-privileged role, is denied:
the connection is closed with code 4003, the group registry is left
untouched by the failed attempt (so a previously joined user stays
joined), and no channel-layer event is published (so a previously joined
user receives nothing from the attempt). -/
theorem nonmember_connect_rejected (env : ProjectEnv) (cache : SharedCache)
    (u2 : User) (slug : String) (p : Project)
    (hfind : env.projects.find? (fun q => q.slug == slug) = some p)
    (howner : p.owner ≠ u2.id)
    (hmgr : p.manager ≠ some u2.id)
    (hmem : env.memberships.find?
      (fun m => m.project == p.id && m.user == u2.id) = none)
    (hpub : p.is_public = false)
    (hadm : u2.role ≠ "admin")
    (hman : u2.role ≠ "manager") :
    ProjectConsumer.connect env cache (.user u2) slug = (cache, [.close 4003]) ∧
    (∀ (reg : GroupRegistry) (ch : String),
       applyActions reg ch (ProjectConsumer.connect env cache (.user u2) slug).2 = reg) ∧
    publishedEvents (ProjectConsumer.connect env cache (.user u2) slug).2 = [] := by
  have hca : ProjectConsumer.check_project_access env u2 slug = none := by
    unfold ProjectConsumer.check_project_access
    rw [hfind]
    have h1 : (p.owner == u2.id) = false := beq_eq_false_iff_ne.mpr howner
    have h2 : (p.manager == some u2.id) = false := beq_eq_false_iff_ne.mpr hmgr
    have h3 : (u2.role == "admin") = false := beq_eq_false_iff_ne.mpr hadm
    have h4 : (u2.role == "manager") = false := beq_eq_false_iff_ne.mpr hman
    simp [hmem, h1, h2, h3, h4, hpub]
  have hc : ProjectConsumer.connect env cache (.user u2) slug =
      (cache, [.close 4003]) := by
    simp [ProjectConsumer.connect, hca]
  refine ⟨hc, ?_, ?_⟩
  · intro reg ch
    rw [hc]
    rfl
  · rw [hc]
    rfl

/-- C7 witness: `alice`'s channel is joined to `project_p1`; `bob` (not a
member of the private project) attempts to connect — denied with 4003,
the registry containing `alice` is unchanged, nothing is published. -/
theorem nonmember_connect_rejected_witness :
    ProjectConsumer.connect sampleProjectEnv emptyCache (.user bob) "p1" =
      (emptyCache, [.close 4003]) ∧
    applyActions { members := [("project_p1", ["chAlice"])] } "chBob"
      (ProjectConsumer.connect sampleProjectEnv emptyCache (.user bob) "p1").2 =
      { members := [("project_p1", ["chAlice"])] } ∧
    publishedEvents
      (ProjectConsumer.connect sampleProjectEnv emptyCache (.user bob) "p1").2 = [] := by
  have h := nonmember_connect_rejected sampleProjectEnv emptyCache bob "p1"
    sampleProject (by decide) (by decide) (by decide) (by decide) (by decide)
    (by decide) (by decide)
  exact ⟨h.1, h.2.1 { members := [("project_p1", ["chAlice"])] } "chBob", h.2.2⟩

/-- C5 counterexample: `alice` (the owner) is admitted to the `p1` room,
yet the connect performs no `group_add` on her notification group
`user_1_notifications` — only the room group is joined; and when access
is denied (`bob`), the whole connection is closed with 4003, so no
notification channel succeeds on that connection. -/
theorem room_connect_no_notification_group_cx :
    Action.accept ∈
      (ProjectConsumer.connect sampleProjectEnv emptyCache (.user alice) "p1").2 ∧
    Action.groupAdd "project_p1" ∈
      (ProjectConsumer.connect sampleProjectEnv emptyCache (.user alice) "p1").2 ∧
    Action.groupAdd "user_1_notifications" ∉
      (ProjectConsumer.connect sampleProjectEnv emptyCache (.user alice) "p1").2 ∧
    ProjectConsumer.connect sampleProjectEnv emptyCache (.user bob) "p1" =
      (emptyCache, [Action.close 4003]) := by decide

/-- C5 amended: a connection admitted on a room endpoint joins exactly
the requested room group `project_<slug>` and no other group — in
particular not the identity's notification group, which only the separate
notification endpoint joins; when the room authorization check denies
access, the connection is closed with code 4003 and nothing succeeds on
it. -/
theorem room_connect_joins_only_room_group (env : ProjectEnv)
    (cache : SharedCache) (u : User) (slug : String) :
    (∀ info, ProjectConsumer.check_project_access env u slug = some info →
       ((ProjectConsumer.connect env cache (.user u) slug).2.filterMap
         (fun a => match a with | .groupAdd g => some g | _ => none)) =
         ["project_" ++ slug]) ∧
    (ProjectConsumer.check_project_access env u slug = none →
       ProjectConsumer.connect env cache (.user u) slug =
         (cache, [.close 4003])) := by
  constructor
  · intro info hca
    simp [ProjectConsumer.connect, hca, List.filterMap]
  · intro hca
    simp [ProjectConsumer.connect, hca]

/-- C5 amended witness: `alice` is admitted to `p1` and the only group
joined is `project_p1`; `bob` is denied and closed with 4003. -/
theorem room_connect_joins_only_room_group_witness :
    ProjectConsumer.check_project_access sampleProjectEnv alice "p1" =
      some { id := 11, role := "owner", can_edit := true } ∧
    ((ProjectConsumer.connect sampleProjectEnv emptyCache (.user alice) "p1").2.filterMap
      (fun a => match a with | .groupAdd g => some g | _ => none)) =
      ["project_" ++ "p1"] ∧
    ProjectConsumer.check_project_access sampleProjectEnv bob "p1" = none ∧
    ProjectConsumer.connect sampleProjectEnv emptyCache (.user bob) "p1" =
      (emptyCache, [.close 4003]) := by
  have h := room_connect_joins_only_room_group sampleProjectEnv emptyCache alice "p1"
  have h2 := room_connect_joins_only_room_group sampleProjectEnv emptyCache bob "p1"
  exact ⟨by decide,
    h.1 { id := 11, role := "owner", can_edit := true } (by decide),
    by decide, h2.2 (by decide)⟩

/-- C1 counterexample: task 21 is created with assignee 3 and creator 5
(distinct).  `perform_create` persists no `Notification` row at all — in
particular not one for recipient 3 and one for recipient 5 — and with
users 3, 5 and 9 all connected, only the assignee's client `ch3` receives
a live `notification` frame; the creator's client `ch5` receives
nothing. -/
theorem task_assignment_two_records_cx :
    (TaskViewSet.perform_create taskUsers [] sampleTask "p1").1 = [] ∧
    ¬ ((((TaskViewSet.perform_create taskUsers [] sampleTask "p1").1.filter
           (fun n => n.recipient == 3)).length = 1) ∧
       (((TaskViewSet.perform_create taskUsers [] sampleTask "p1").1.filter
           (fun n => n.recipient == 5)).length = 1)) ∧
    deliverAll taskClients taskRegistry
        (TaskViewSet.perform_create taskUsers [] sampleTask "p1").2 =
      [("ch3", .notificationFrame
        { ptype := some "TASK_ASSIGNED", title := some "New Task Assigned",
          message := some "You have been assigned to task \"T\"",
          category := none, notification_type := none,
          task_id := some 21, project_slug := some "p1" })] := by decide

/-- C1 amended: handling a task-creation event with an assignee persists
no `Notification` row (the table passes through unchanged) and publishes
exactly two channel-layer events: one `notification_message` to the
assignee's notification group — none to the creator or any other member —
and one `project_broadcast` to the project room group. -/
theorem perform_create_publishes_assignee_only (users : List User)
    (table : List Notification) (task : Task) (slug : String) (a : Nat)
    (ha : task.assignee = some a) :
    (TaskViewSet.perform_create users table task slug).1 = table ∧
    publishedEvents (TaskViewSet.perform_create users table task slug).2 =
      [("user_" ++ toString a ++ "_notifications",
        .notification_message
          { ptype := some "TASK_ASSIGNED", title := some "New Task Assigned",
            message := some ("You have been assigned to task \"" ++ task.title ++ "\""),
            category := none, notification_type := none,
            task_id := some task.id, project_slug := some slug }),
       ("project_" ++ slug,
        .project_broadcast (.str "task_update")
          (.taskUpdate
            { task_id := task.id, task_title := task.title,
              status := task.status,
              assignee := task.assignee.map (fun uid =>
                ((users.find? (fun u => u.id == uid)).map
                  (fun u => u.username)).getD ""),
              created_by := ((users.find? (fun u => u.id == task.created_by)).map
                (fun u => u.username)).getD "" }))] := by
  constructor
  · rfl
  · simp [TaskViewSet.perform_create, ha, publishedEvents,
      send_realtime_notification, broadcast_project_update, List.filterMap]

/-- C1 amended witness: the concrete task 21 (assignee 3, creator 5). -/
theorem perform_create_publishes_assignee_only_witness :
    sampleTask.assignee = some 3 ∧
    (TaskViewSet.perform_create taskUsers [] sampleTask "p1").1 = [] ∧
    publishedEvents (TaskViewSet.perform_create taskUsers [] sampleTask "p1").2 =
      [("user_3_notifications",
        .notification_message
          { ptype := some "TASK_ASSIGNED", title := some "New Task Assigned",
            message := some "You have been assigned to task \"T\"",
            category := none, notification_type := none,
            task_id := some 21, project_slug := some "p1" }),
       ("project_p1",
        .project_broadcast (.str "task_update")
          (.taskUpdate
            { task_id := 21, task_title := "T", status := "TODO",
              assignee := some "carol", created_by := "dave" }))] := by
  have h := perform_create_publishes_assignee_only taskUsers [] sampleTask "p1" 3 rfl
  exact ⟨rfl, h.1, h.2.trans (by decide)⟩

/-- C6: a credential that validates successfully at time `t` with expiry
`e` is cached with time-to-live `min 300 (e - t)`, so the entry dies no
later than `e` and the cache can never serve a validation success past
the expiry; at any later time `t2 > e`, verification of the same
credential misses the cache and fails with the `Token expired` reason —
regardless of any connection state, which the validator never sees. -/
theorem token_cache_ttl_bounded_by_expiry (env : AuthEnv) (c : NatCache)
    (t : Nat) (s : String) (payload : TokenPayload) (e uid : Nat) (u : User)
    (hs : s ≠ "")
    (hdec : env.decode s = some payload)
    (huid : payload.user_id = some uid) (huid0 : uid ≠ 0)
    (hexp : payload.exp = some e) (he0 : e ≠ 0)
    (hnexp : ¬ t > e)
    (hjti : (match strTruthy payload.jti with
             | some j => decide (j ∈ env.outstanding_jtis) &&
                 decide (j ∈ env.blacklisted_jtis)
             | none => false) = false)
    (huser : env.users.find? (fun v => v.id == uid && v.is_active) = some u)
    (hmiss : cacheGet c (tokenCacheKey s) t = none) :
    (get_user_from_token env c t (some s)).1 =
      { user := some uid, error := none, is_valid := true } ∧
    (get_user_from_token env c t (some s)).2 =
      cacheSet c (tokenCacheKey s) uid (min 300 (e - t)) t ∧
    t + min 300 (e - t) ≤ e ∧
    ∀ t2, e < t2 →
      (get_user_from_token env (get_user_from_token env c t (some s)).2 t2
          (some s)).1 =
        { user := none, error := some "Token expired", is_valid := false } := by
  have hval : validateToken env c t s =
      ({ user := some uid, error := none, is_valid := true },
       cacheSet c (tokenCacheKey s) uid (min 300 (e - t)) t) := by
    simp [validateToken, hdec, huid, hexp, natTruthy, huid0, he0, hnexp, hjti,
      huser, Nat.zero_max]
  have hfull : get_user_from_token env c t (some s) =
      ({ user := some uid, error := none, is_valid := true },
       cacheSet c (tokenCacheKey s) uid (min 300 (e - t)) t) := by
    simp [get_user_from_token, strTruthy, hs, hmiss, natTruthy, hval]
  have hmle : min 300 (e - t) ≤ e - t := Nat.min_le_right _ _
  refine ⟨by rw [hfull], by rw [hfull], by omega, ?_⟩
  intro t2 ht2
  rw [hfull]
  have hget : cacheGet (cacheSet c (tokenCacheKey s) uid (min 300 (e - t)) t)
      (tokenCacheKey s) t2 = none := by
    rw [cacheGet_cacheSet_self]
    rw [if_neg]
    omega
  have hgt : t2 > e := ht2
  simp [get_user_from_token, strTruthy, hs, hget, natTruthy, validateToken,
    hdec, huid, huid0, hexp, he0, hgt, hjti, huser]

/-- C6 witness: token `tok` of user 7, expiring at 1000, validated at
900 (cached with TTL 100) and re-verified at 1500. -/
theorem token_cache_ttl_bounded_by_expiry_witness :
    sampleAuthEnv.decode "tok" =
      some { user_id := some 7, exp := some 1000, jti := none } ∧
    cacheGet [] (tokenCacheKey "tok") 900 = none ∧
    (get_user_from_token sampleAuthEnv [] 900 (some "tok")).1 =
      { user := some 7, error := none, is_valid := true } ∧
    900 + min 300 (1000 - 900) ≤ 1000 ∧
    (get_user_from_token sampleAuthEnv
        (get_user_from_token sampleAuthEnv [] 900 (some "tok")).2 1500
        (some "tok")).1 =
      { user := none, error := some "Token expired", is_valid := false } := by
  have h := token_cache_ttl_bounded_by_expiry sampleAuthEnv [] 900 "tok"
    { user_id := some 7, exp := some 1000, jti := none } 1000 7
    { id := 7, username := "grace", full_name := "Grace G", role := "DEV",
      is_active := true }
    (by decide) rfl rfl (by decide) rfl (by decide) (by decide) rfl rfl rfl
  exact ⟨rfl, rfl, h.1, h.2.2.1, h.2.2.2 1500 (by decide)⟩

/-- A denied attempt: with the counter at the ceiling, the middleware
closes with 4029 immediately — its trace holds no token work — and leaves
both caches untouched. -/
theorem call_denied (env : AuthEnv) (tv rl : NatCache)
    (scope : JWTAuthMiddleware.Scope) (now current : Nat)
    (hget : (cacheGet rl
      ("ws_ratelimit_" ++ JWTAuthMiddleware.get_client_ip scope) now).getD 0 =
      current)
    (hcur : 10 ≤ current) :
    JWTAuthMiddleware.call env tv rl scope now =
      ((tv, rl),
       [.rateLimitCheck (JWTAuthMiddleware.get_client_ip scope),
        .closeConn 4029 "Rate limit exceeded"]) := by
  unfold JWTAuthMiddleware.call JWTAuthMiddleware.check_rate_limit
  simp [hget, hcur, JWTAuthMiddleware.RATE_LIMIT_CONNECTIONS]

/-- An allowed attempt: below the ceiling the middleware increments the
counter with the window as TTL, and its trace never holds a 4029
close. -/
theorem call_allowed (env : AuthEnv) (tv rl : NatCache)
    (scope : JWTAuthMiddleware.Scope) (now current : Nat)
    (hget : (cacheGet rl
      ("ws_ratelimit_" ++ JWTAuthMiddleware.get_client_ip scope) now).getD 0 =
      current)
    (hcur : current < 10) :
    (JWTAuthMiddleware.call env tv rl scope now).1.2 =
      cacheSet rl ("ws_ratelimit_" ++ JWTAuthMiddleware.get_client_ip scope)
        (current + 1) 60 now ∧
    ∀ reason, JWTAuthMiddleware.MwStep.closeConn 4029 reason ∉
      (JWTAuthMiddleware.call env tv rl scope now).2 := by
  have hnot : ¬ (current ≥ JWTAuthMiddleware.RATE_LIMIT_CONNECTIONS) := by
    simp [JWTAuthMiddleware.RATE_LIMIT_CONNECTIONS]
    omega
  unfold JWTAuthMiddleware.call JWTAuthMiddleware.check_rate_limit
  cases hgu : get_user_from_token env tv now
      (JWTAuthMiddleware.extract_token scope) with
  | mk vr tv1 =>
    by_cases hv : vr.is_valid
    · simp [hget, hnot, JWTAuthMiddleware.RATE_LIMIT_WINDOW, hgu, hv]
    · simp [hget, hnot, JWTAuthMiddleware.RATE_LIMIT_WINDOW, hgu, hv]

/-- Counter state after `k` sequential attempts within one window: the
counter reads exactly `k`, with the expiry set by the latest
increment. -/
theorem rate_limit_counter_after (env : AuthEnv) (tv0 rl0 : NatCache)
    (scope : JWTAuthMiddleware.Scope) (t : Nat → Nat)
    (h0 : rl0.find? (fun x =>
      x.1 == "ws_ratelimit_" ++ JWTAuthMiddleware.get_client_ip scope) = none)
    (hmono : ∀ i, t i ≤ t (i + 1))
    (hwin : t 10 < t 0 + 60) :
    ∀ k, k ≤ 10 →
      (attemptStates env tv0 rl0 scope t k).2.find?
          (fun x => x.1 ==
            "ws_ratelimit_" ++ JWTAuthMiddleware.get_client_ip scope) =
        (match k with
         | 0 => none
         | j + 1 =>
           some ("ws_ratelimit_" ++ JWTAuthMiddleware.get_client_ip scope,
             j + 1, t j + 60)) := by
  have hm : Monotone t := monotone_nat_of_le_succ hmono
  intro k
  induction k with
  | zero => intro _; exact h0
  | succ j ih =>
    intro hk
    have hj10 : j ≤ 10 := by omega
    have ihj := ih hj10
    have hget : (cacheGet (attemptStates env tv0 rl0 scope t j).2
        ("ws_ratelimit_" ++ JWTAuthMiddleware.get_client_ip scope)
        (t j)).getD 0 = j := by
      cases j with
      | zero => simp [cacheGet, ihj]
      | succ i =>
        have hlive : t (i + 1) < t i + 60 := by
          have h1 : t (i + 1) ≤ t 10 := hm (by omega)
          have h2 : t 0 ≤ t i := hm (Nat.zero_le i)
          omega
        simp [cacheGet, ihj, hlive]
    have hcur : j < 10 := by omega
    have hca := call_allowed env (attemptStates env tv0 rl0 scope t j).1
      (attemptStates env tv0 rl0 scope t j).2 scope (t j) j hget hcur
    show (JWTAuthMiddleware.call env (attemptStates env tv0 rl0 scope t j).1
        (attemptStates env tv0 rl0 scope t j).2 scope (t j)).1.2.find? _ = _
    rw [hca.1]
    unfold cacheSet
    exact assocSet_find_self _ _ _

/-- The counter the `(k+1)`-th attempt reads is `k`, for attempts within
one window. -/
theorem rate_limit_current_at (env : AuthEnv) (tv0 rl0 : NatCache)
    (scope : JWTAuthMiddleware.Scope) (t : Nat → Nat)
    (h0 : rl0.find? (fun x =>
      x.1 == "ws_ratelimit_" ++ JWTAuthMiddleware.get_client_ip scope) = none)
    (hmono : ∀ i, t i ≤ t (i + 1))
    (hwin : t 10 < t 0 + 60)
    (k : Nat) (hk : k ≤ 10) :
    (cacheGet (attemptStates env tv0 rl0 scope t k).2
      ("ws_ratelimit_" ++ JWTAuthMiddleware.get_client_ip scope)
      (t k)).getD 0 = k := by
  have hm : Monotone t := monotone_nat_of_le_succ hmono
  have hinv := rate_limit_counter_after env tv0 rl0 scope t h0 hmono hwin k hk
  cases k with
  | zero => simp [cacheGet, hinv]
  | succ i =>
    have hlive : t (i + 1) < t i + 60 := by
      have h1 : t (i + 1) ≤ t 10 := hm (by omega)
      have h2 : t 0 ≤ t i := hm (Nat.zero_le i)
      omega
    simp [cacheGet, hinv, hlive]

/-- C4: eleven sequential connection attempts from one address within one
60-second window, against the 10-attempt ceiling: none of the first ten
is refused with 4029, while the eleventh attempt's entire work trace is
the rate-limit check followed by the 4029 close — it performs no token
extraction and no credential validation at all. -/
theorem eleventh_attempt_rate_limited (env : AuthEnv) (tv0 rl0 : NatCache)
    (scope : JWTAuthMiddleware.Scope) (t : Nat → Nat)
    (h0 : rl0.find? (fun x =>
      x.1 == "ws_ratelimit_" ++ JWTAuthMiddleware.get_client_ip scope) = none)
    (hmono : ∀ i, t i ≤ t (i + 1))
    (hwin : t 10 < t 0 + 60) :
    (∀ k, k < 10 → ∀ reason,
       JWTAuthMiddleware.MwStep.closeConn 4029 reason ∉
         attemptTrace env tv0 rl0 scope t k) ∧
    attemptTrace env tv0 rl0 scope t 10 =
      [.rateLimitCheck (JWTAuthMiddleware.get_client_ip scope),
       .closeConn 4029 "Rate limit exceeded"] ∧
    JWTAuthMiddleware.MwStep.tokenExtraction ∉
      attemptTrace env tv0 rl0 scope t 10 ∧
    ∀ tok, JWTAuthMiddleware.MwStep.tokenValidation tok ∉
      attemptTrace env tv0 rl0 scope t 10 := by
  have h10 := rate_limit_current_at env tv0 rl0 scope t h0 hmono hwin 10
    (le_refl 10)
  have hden := call_denied env (attemptStates env tv0 rl0 scope t 10).1
    (attemptStates env tv0 rl0 scope t 10).2 scope (t 10) 10 h10 (le_refl 10)
  have htr : attemptTrace env tv0 rl0 scope t 10 =
      [.rateLimitCheck (JWTAuthMiddleware.get_client_ip scope),
       .closeConn 4029 "Rate limit exceeded"] := by
    unfold attemptTrace
    rw [hden]
  refine ⟨?_, htr, ?_, ?_⟩
  · intro k hk reason
    have hgetk := rate_limit_current_at env tv0 rl0 scope t h0 hmono hwin k
      (le_of_lt hk)
    have hca := call_allowed env (attemptStates env tv0 rl0 scope t k).1
      (attemptStates env tv0 rl0 scope t k).2 scope (t k) k hgetk hk
    exact hca.2 reason
  · rw [htr]; simp
  · intro tok; rw [htr]; simp

/-- C4 witness: eleven attempts from `10.0.0.9`, all inside one window,
against fresh caches. -/
theorem eleventh_attempt_rate_limited_witness :
    ([] : NatCache).find? (fun x =>
      x.1 == "ws_ratelimit_" ++ JWTAuthMiddleware.get_client_ip sampleScope) =
      none ∧
    attemptTrace sampleAuthEnv [] [] sampleScope (fun _ => 0) 10 =
      [.rateLimitCheck (JWTAuthMiddleware.get_client_ip sampleScope),
       .closeConn 4029 "Rate limit exceeded"] ∧
    JWTAuthMiddleware.MwStep.tokenExtraction ∉
      attemptTrace sampleAuthEnv [] [] sampleScope (fun _ => 0) 10 := by
  have h := eleventh_attempt_rate_limited sampleAuthEnv [] [] sampleScope
    (fun _ => 0) rfl (fun i => le_refl 0) (by decide)
  exact ⟨rfl, h.2.1, h.2.2.1⟩

end ManageProject
